import Mathlib

/-!
Verification development for the prompt-chaining calendar workflow of the
ai-cookbook repository.

Shallow embedding of:
- patterns/workflows/2-workflow-patterns/1-prompt-chaining.py
  (orchestrator process_calendar_request: Stage 1 gate, Stage 2, Stage 3)
- patterns/workflows/2-workflow-patterns/1a-prompt-chaining-full-workflow.py
  (orchestrator with the Act stage: Google Calendar event creation)
- patterns/workflows/2-workflow-patterns/calendar_tools.py (create_event)
- patterns/workflows/1-introduction/3-tools.py (tool-calling loop)

External collaborators (the OpenAI completion provider, the Google Calendar
backend, the network) are modelled as explicit stub functions and a backend
behaviour parameter; every stage call and every external dispatch is recorded
in a trace so that call-count properties can be stated.
-/

/-- Kinds of Python exceptions that can propagate through the pipeline.
valueError: raised by datetime.strptime on a format mismatch (and by the
call_function dispatcher for an unknown tool name).
validationError: raised by pydantic when a provider response fails the
declared schema.
providerError: any exception raised by the OpenAI client call itself.
transportError: a timeout or connection drop on the external calendar
request; it is not an HttpError, so the except clause in create_event does
not catch it. -/
inductive PyExn where
| valueError : PyExn
| validationError : PyExn
| providerError : PyExn
| transportError : PyExn
deriving DecidableEq, Repr

/-- Result model of the first LLM call (class EventExtraction in both
workflow files): description, is_calendar_event, confidence_score.
The confidence is embedded as a rational number. -/
structure EventExtraction where
  description : String
  is_calendar_event : Bool
  confidence_score : ℚ

/-- Result model of the second LLM call (class EventDetails): name, date
(a plain string the model is asked to format), duration_minutes (a plain
int field with no range constraint), participants. -/
structure EventDetails where
  name : String
  date : String
  duration_minutes : Int
  participants : List String
deriving DecidableEq, Repr

/-- Result model of the third LLM call (class EventConfirmation). -/
structure EventConfirmation where
  confirmation_message : String
  calendar_link : Option String
deriving DecidableEq, Repr

/-! ## JSON values

Used both for the pydantic validation model (what the structured-output
machinery hands to the EventDetails model) and for the tool-calling loop
(arguments and results of json.loads / json.dumps). -/

inductive Json where
| null : Json
| bool (b : Bool) : Json
| int (n : Int) : Json
| str (s : String) : Json
| arr (xs : List Json) : Json
| obj (kvs : List (String × Json)) : Json

/-- Escape a string for JSON output (quote and backslash). -/
def json_escape (s : String) : String :=
  s.data.foldl
    (fun acc c =>
      if c = '\\' then acc ++ "\\\\"
      else if c = '"' then acc ++ "\\\""
      else acc.push c)
    ""

mutual

/-- Model of json.dumps with the default separators. -/
def json_dumps : Json → String
| Json.null => "null"
| Json.bool b => cond b "true" "false"
| Json.int n => toString n
| Json.str s => "\"" ++ json_escape s ++ "\""
| Json.arr xs => "[" ++ json_dumps_elems xs ++ "]"
| Json.obj kvs => "\x7b" ++ json_dumps_fields kvs ++ "\x7d"

def json_dumps_elems : List Json → String
| [] => ""
| [x] => json_dumps x
| x :: xs => json_dumps x ++ ", " ++ json_dumps_elems xs

def json_dumps_fields : List (String × Json) → String
| [] => ""
| [(k, v)] => "\"" ++ json_escape k ++ "\": " ++ json_dumps v
| (k, v) :: xs => "\"" ++ json_escape k ++ "\": " ++ json_dumps v ++ ", " ++ json_dumps_fields xs

end

/-! ## Pydantic validation of EventDetails

client.beta.chat.completions.parse validates the provider JSON against the
pydantic model. The EventDetails model declares name: str, date: str,
duration_minutes: int, participants: list[str], with no further
constraints (no positivity bound on the duration, no format check on the
date string). Validation therefore checks shape and field types only. -/

/-- Check that every element of a JSON array is a string. -/
def all_strings : List Json → Option (List String)
| [] => some []
| Json.str s :: xs =>
    match all_strings xs with
    | some rest => some (s :: rest)
    | none => none
| _ => none

/-- Pydantic validation of a provider response against the EventDetails
model of 1-prompt-chaining.py and 1a-prompt-chaining-full-workflow.py:
requires a JSON object with a string name, a string date, an integer
duration_minutes and an array-of-strings participants; extra keys are
ignored; any shape or type violation raises ValidationError. -/
def validate_EventDetails (j : Json) : Except PyExn EventDetails :=
  match j with
  | Json.obj kvs =>
    match kvs.lookup "name", kvs.lookup "date",
          kvs.lookup "duration_minutes", kvs.lookup "participants" with
    | some (Json.str n), some (Json.str d), some (Json.int m), some (Json.arr ps) =>
      match all_strings ps with
      | some parts => Except.ok ⟨n, d, m, parts⟩
      | none => Except.error PyExn.validationError
    | _, _, _, _ => Except.error PyExn.validationError
  | _ => Except.error PyExn.validationError

/-- The validation step of Stage 2 (parse_event_details): the structured
response of the provider is parsed into the EventDetails model; a schema
violation raises, anything else is returned as the parsed record. -/
def parse_event_details_validation (providerResponse : Json) : Except PyExn EventDetails :=
  validate_EventDetails providerResponse

/-! ## datetime.strptime with format "%Y-%m-%d %H:%M"

create_event converts its start_datetime argument with
datetime.strptime(start_datetime, "%Y-%m-%d %H:%M") before anything else.
CPython compiles the format to a regular expression: %Y matches exactly
four digits, %m matches 1[0-2]|0[1-9]|[1-9], %d matches
3[01]|[12]\d|0[1-9]|[1-9], %H matches 2[0-3]|[0-1]\d|\d, %M matches
[0-5]\d|\d, a space in the format matches one or more whitespace
characters, and other characters match literally. A non-match, leftover
characters, or an out-of-range calendar date raise ValueError. -/

/-- Broken-down time produced by strptime. -/
structure Tm where
  year : Nat
  month : Nat
  day : Nat
  hour : Nat
  minute : Nat
deriving DecidableEq, Repr

/-- Numeric value of a decimal digit character. -/
def digitVal (c : Char) : Nat := c.toNat - 48

/-- %Y: exactly four decimal digits. -/
def parseYear4 : List Char → Option (Nat × List Char)
| a :: b :: c :: d :: rest =>
  if a.isDigit ∧ b.isDigit ∧ c.isDigit ∧ d.isDigit then
    some (1000 * digitVal a + 100 * digitVal b + 10 * digitVal c + digitVal d, rest)
  else none
| _ => none

/-- %m: 1[0-2] or 0[1-9] or [1-9], alternatives in regex order. -/
def parseMonth : List Char → Option (Nat × List Char)
| '1' :: c :: rest =>
  if '0' ≤ c ∧ c ≤ '2' then some (10 + digitVal c, rest) else some (1, c :: rest)
| '0' :: c :: rest =>
  if '1' ≤ c ∧ c ≤ '9' then some (digitVal c, rest) else none
| c :: rest => if '1' ≤ c ∧ c ≤ '9' then some (digitVal c, rest) else none
| [] => none

/-- %d: 3[01] or [12]\d or 0[1-9] or [1-9], alternatives in regex order. -/
def parseDay : List Char → Option (Nat × List Char)
| '3' :: c :: rest =>
  if c = '0' ∨ c = '1' then some (30 + digitVal c, rest) else some (3, c :: rest)
| c1 :: c2 :: rest =>
  if (c1 = '1' ∨ c1 = '2') ∧ c2.isDigit then
    some (10 * digitVal c1 + digitVal c2, rest)
  else if c1 = '0' ∧ ('1' ≤ c2 ∧ c2 ≤ '9') then some (digitVal c2, rest)
  else if '1' ≤ c1 ∧ c1 ≤ '9' then some (digitVal c1, c2 :: rest)
  else none
| [c1] => if '1' ≤ c1 ∧ c1 ≤ '9' then some (digitVal c1, []) else none
| [] => none

/-- %H: 2[0-3] or [0-1]\d or \d, alternatives in regex order. -/
def parseHour : List Char → Option (Nat × List Char)
| '2' :: c :: rest =>
  if '0' ≤ c ∧ c ≤ '3' then some (20 + digitVal c, rest) else some (2, c :: rest)
| c1 :: c2 :: rest =>
  if (c1 = '0' ∨ c1 = '1') ∧ c2.isDigit then
    some (10 * digitVal c1 + digitVal c2, rest)
  else if c1.isDigit then some (digitVal c1, c2 :: rest)
  else none
| [c1] => if c1.isDigit then some (digitVal c1, []) else none
| [] => none

/-- %M: [0-5]\d or \d, alternatives in regex order. -/
def parseMinute : List Char → Option (Nat × List Char)
| c1 :: c2 :: rest =>
  if ('0' ≤ c1 ∧ c1 ≤ '5') ∧ c2.isDigit then
    some (10 * digitVal c1 + digitVal c2, rest)
  else if c1.isDigit then some (digitVal c1, c2 :: rest)
  else none
| [c1] => if c1.isDigit then some (digitVal c1, []) else none
| [] => none

/-- A literal character of the format. -/
def parseLit (c : Char) : List Char → Option (List Char)
| x :: rest => if x = c then some rest else none
| [] => none

/-- A space in the format: one or more whitespace characters. -/
def parseSpaces : List Char → Option (List Char)
| x :: rest => if x.isWhitespace then some (rest.dropWhile Char.isWhitespace) else none
| [] => none

/-- True for leap years of the proleptic Gregorian calendar. -/
def isLeapYear (y : Nat) : Bool :=
  (y % 4 = 0 ∧ ¬ y % 100 = 0) ∨ y % 400 = 0

/-- Number of days of a month (month already constrained to 1..12). -/
def daysInMonth (y m : Nat) : Nat :=
  if m = 2 then (if isLeapYear y then 29 else 28)
  else if m = 4 ∨ m = 6 ∨ m = 9 ∨ m = 11 then 30
  else 31

/-- datetime.strptime(s, "%Y-%m-%d %H:%M"): regex match from the start of
the string, no unconverted data allowed, then construction of a datetime,
which additionally checks MINYEAR <= year and that the day exists in the
month; none models a raised ValueError. -/
def strptime_YmdHM (s : String) : Option Tm := do
  let (y, r1) ← parseYear4 s.data
  let r2 ← parseLit '-' r1
  let (m, r3) ← parseMonth r2
  let r4 ← parseLit '-' r3
  let (d, r5) ← parseDay r4
  let r6 ← parseSpaces r5
  let (h, r7) ← parseHour r6
  let r8 ← parseLit ':' r7
  let (mi, r9) ← parseMinute r8
  if r9 = [] ∧ 1 ≤ y ∧ d ≤ daysInMonth y m then
    some ⟨y, m, d, h, mi⟩
  else none

/-- Days since 1970-01-01 of a proleptic Gregorian civil date
(the computation performed by datetime arithmetic). -/
def daysFromCivil (y m d : Int) : Int :=
  let y2 : Int := if m ≤ 2 then y - 1 else y
  let era : Int := (if 0 ≤ y2 then y2 else y2 - 399) / 400
  let yoe : Int := y2 - era * 400
  let mp : Int := (m + 9) % 12
  let doy : Int := (153 * mp + 2) / 5 + d - 1
  let doe : Int := yoe * 365 + yoe / 4 - yoe / 100 + doy
  era * 146097 + doe - 719468

/-- Minutes since 1970-01-01 00:00 UTC of a broken-down time; the value of
start_time after .replace(tzinfo=timezone.utc). -/
def minutesOfTm (t : Tm) : Int :=
  daysFromCivil (Int.ofNat t.year) (Int.ofNat t.month) (Int.ofNat t.day) * 1440
    + Int.ofNat t.hour * 60 + Int.ofNat t.minute

/-! ## calendar_tools.create_event

create_event(service, title, start_datetime, duration_minutes,
attendees_emails, description, location, reminders, visibility, color_id,
add_meet_link) first runs strptime on start_datetime (a mismatch raises
ValueError before any request is sent), computes end_time = start_time +
duration, builds the event body, and calls
service.events().insert(...).execute() inside try/except HttpError. An
HttpError is caught and printed; the trailing check whether the response
dictionary contains id and htmlLink then runs on the request body, which
has no id key, so the function returns False. A timeout or connection drop
is not an HttpError and therefore propagates out of create_event. -/

/-- The request body handed to the Google Calendar insert call. -/
structure EventBody where
  summary : String
  body_description : Option String
  startMinutesUTC : Int
  endMinutesUTC : Int
  location : String
  attendees : List String
  visibility : String
  colorId : String
  remindersUseDefault : Bool
  remindersOverrides : Bool
  conference : Bool
deriving DecidableEq, Repr

/-- Behaviour of the external calendar backend for one insert call:
either it answers with a response dictionary (which may or may not carry
the id and htmlLink keys), or the call raises an HttpError, or the call
times out / the connection drops (raising an exception that is not an
HttpError). -/
inductive BackendBehavior where
| respond (hasId hasHtmlLink : Bool) : BackendBehavior
| httpError : BackendBehavior
| transportError : BackendBehavior
deriving DecidableEq, Repr

/-- One observable call made while processing a request: the three LLM
stage calls, the create_event call of the Act stage, and the external
insert dispatch performed inside create_event. -/
inductive Call where
| extract (input : String) : Call
| parse (desc : String) : Call
| createEvent (title date : String) (duration : Int) (attendees : List String) : Call
| dispatch (body : EventBody) : Call
| confirm (details : EventDetails) : Call
deriving DecidableEq, Repr

/-- calendar_tools.create_event. Returns the Python return value (True or
False) or a propagating exception, together with the list of external
dispatches it performed. -/
def create_event (backend : BackendBehavior) (title : String)
    (start_datetime : String) (duration_minutes : Int)
    (attendees_emails : List String) (descr : Option String)
    (location : Option String) (reminders : Bool) (visibility : String)
    (color_id : String) (add_meet_link : Bool) :
    Except PyExn Bool × List Call :=
  match strptime_YmdHM start_datetime with
  | none => (Except.error PyExn.valueError, [])
  | some tm =>
    let startM := minutesOfTm tm
    let endM := startM + duration_minutes
    let body : EventBody :=
      { summary := title
        body_description := descr
        startMinutesUTC := startM
        endMinutesUTC := endM
        location := location.getD ""
        attendees := attendees_emails
        visibility := visibility
        colorId := color_id
        remindersUseDefault := if reminders then false else true
        remindersOverrides := reminders
        conference := add_meet_link }
    match backend with
    | BackendBehavior.respond hasId hasHtmlLink =>
      (Except.ok (hasId && hasHtmlLink), [Call.dispatch body])
    | BackendBehavior.httpError =>
      (Except.ok false, [Call.dispatch body])
    | BackendBehavior.transportError =>
      (Except.error PyExn.transportError, [Call.dispatch body])

/-! ## The orchestrators -/

/-- Stub environment standing for the external collaborators of one
pipeline run: the three completion-provider calls (each may raise), the
availability of the Google Calendar connection
(authenticate_and_connect_to_GoogleCalendarAPI returning a service object
or None), and the behaviour of the calendar backend. -/
structure Env where
  extractStub : String → Except PyExn EventExtraction
  parseStub : String → Except PyExn EventDetails
  confirmStub : EventDetails → Except PyExn EventConfirmation
  serviceAvailable : Bool
  backend : BackendBehavior

/-- authenticate_and_connect_to_GoogleCalendarAPI: a service object when
the connection succeeds, None otherwise. -/
def authenticate (available : Bool) : Option Unit :=
  if available then some () else none

/-- The participant-copy loop of 1a-prompt-chaining-full-workflow.py:
patricipants_emails starts empty and each participant e-mail is appended
in order. -/
def copy_participants (participants : List String) : List String :=
  participants.foldl (fun acc e => acc ++ [e]) []

/-- Python return value of process_calendar_request: None, a plain failure
string, or the EventConfirmation object. -/
inductive PyResult where
| noneVal : PyResult
| failureMessage (s : String) : PyResult
| confirmation (c : EventConfirmation) : PyResult
deriving DecidableEq, Repr

/-- The failure string returned by 1a-prompt-chaining-full-workflow.py
both when the calendar connection is unavailable and when create_event
returns False. -/
def techMsg : String :=
  "The meeting has not been created - there were technical problems."

/-- process_calendar_request of 1a-prompt-chaining-full-workflow.py:
Stage 1, the gate (not is_calendar_event or confidence_score < 0.7 returns
None), Stage 2 on the description of Stage 1, connection to the calendar,
the participant-copy loop, create_event with the fields of the
EventDetails record, and Stage 3 only when create_event returned True.
Returns the Python result (or a propagating exception) and the trace of
calls. -/
def process_calendar_request (env : Env) (user_input : String) :
    Except PyExn PyResult × List Call :=
  match env.extractStub user_input with
  | Except.error e => (Except.error e, [Call.extract user_input])
  | Except.ok initial_extraction =>
    if initial_extraction.is_calendar_event = false
        ∨ initial_extraction.confidence_score < 7/10 then
      (Except.ok PyResult.noneVal, [Call.extract user_input])
    else
      match env.parseStub initial_extraction.description with
      | Except.error e =>
        (Except.error e,
         [Call.extract user_input, Call.parse initial_extraction.description])
      | Except.ok event_details =>
        let patricipants_emails := copy_participants event_details.participants
        match authenticate env.serviceAvailable with
        | none =>
          (Except.ok (PyResult.failureMessage techMsg),
           [Call.extract user_input, Call.parse initial_extraction.description])
        | some _ =>
          let ce := create_event env.backend event_details.name
            event_details.date event_details.duration_minutes
            patricipants_emails none none true "default" "1" true
          let tr := [Call.extract user_input,
                     Call.parse initial_extraction.description,
                     Call.createEvent event_details.name event_details.date
                       event_details.duration_minutes patricipants_emails]
            ++ ce.2
          match ce.1 with
          | Except.error e => (Except.error e, tr)
          | Except.ok true =>
            match env.confirmStub event_details with
            | Except.error e => (Except.error e, tr ++ [Call.confirm event_details])
            | Except.ok confirmation =>
              (Except.ok (PyResult.confirmation confirmation),
               tr ++ [Call.confirm event_details])
          | Except.ok false =>
            (Except.ok (PyResult.failureMessage techMsg), tr)

/-- process_calendar_request of 1-prompt-chaining.py: the same Stage 1,
gate and Stage 2, but no Act stage; Stage 3 runs directly on the parsed
details and the confirmation is returned. -/
def process_calendar_request_basic (env : Env) (user_input : String) :
    Except PyExn PyResult × List Call :=
  match env.extractStub user_input with
  | Except.error e => (Except.error e, [Call.extract user_input])
  | Except.ok initial =>
    if initial.is_calendar_event = false
        ∨ initial.confidence_score < 7/10 then
      (Except.ok PyResult.noneVal, [Call.extract user_input])
    else
      match env.parseStub initial.description with
      | Except.error e =>
        (Except.error e, [Call.extract user_input, Call.parse initial.description])
      | Except.ok details =>
        match env.confirmStub details with
        | Except.error e =>
          (Except.error e,
           [Call.extract user_input, Call.parse initial.description,
            Call.confirm details])
        | Except.ok confirmation =>
          (Except.ok (PyResult.confirmation confirmation),
           [Call.extract user_input, Call.parse initial.description,
            Call.confirm details])

/-- Modelled from the spec: the orchestrator as section 4.5 of the spec
describes it, with the gate threshold an explicit caller-supplied
parameter (default 0.7) instead of the literal constant of the source.
Identical to process_calendar_request except at the gate comparison. -/
def process_calendar_request_spec (threshold : ℚ) (env : Env) (user_input : String) :
    Except PyExn PyResult × List Call :=
  match env.extractStub user_input with
  | Except.error e => (Except.error e, [Call.extract user_input])
  | Except.ok initial_extraction =>
    if initial_extraction.is_calendar_event = false
        ∨ initial_extraction.confidence_score < threshold then
      (Except.ok PyResult.noneVal, [Call.extract user_input])
    else
      match env.parseStub initial_extraction.description with
      | Except.error e =>
        (Except.error e,
         [Call.extract user_input, Call.parse initial_extraction.description])
      | Except.ok event_details =>
        let patricipants_emails := copy_participants event_details.participants
        match authenticate env.serviceAvailable with
        | none =>
          (Except.ok (PyResult.failureMessage techMsg),
           [Call.extract user_input, Call.parse initial_extraction.description])
        | some _ =>
          let ce := create_event env.backend event_details.name
            event_details.date event_details.duration_minutes
            patricipants_emails none none true "default" "1" true
          let tr := [Call.extract user_input,
                     Call.parse initial_extraction.description,
                     Call.createEvent event_details.name event_details.date
                       event_details.duration_minutes patricipants_emails]
            ++ ce.2
          match ce.1 with
          | Except.error e => (Except.error e, tr)
          | Except.ok true =>
            match env.confirmStub event_details with
            | Except.error e => (Except.error e, tr ++ [Call.confirm event_details])
            | Except.ok confirmation =>
              (Except.ok (PyResult.confirmation confirmation),
               tr ++ [Call.confirm event_details])
          | Except.ok false =>
            (Except.ok (PyResult.failureMessage techMsg), tr)

/-! ## Trace predicates and helper lemmas -/

/-- True on Stage 2 (parse_event_details) calls. -/
def isParseCall : Call → Bool
| Call.parse _ => true
| _ => false

/-- True on Act stage (create_event) calls. -/
def isCreateEventCall : Call → Bool
| Call.createEvent _ _ _ _ => true
| _ => false

/-- True on Stage 3 (generate_confirmation) calls. -/
def isConfirmCall : Call → Bool
| Call.confirm _ => true
| _ => false

/-- The participant-copy loop reproduces the participants list. -/
theorem copy_participants_eq (l : List String) : copy_participants l = l := by
  have h : ∀ (init : List String), init ++ l = l.foldl (fun acc e => acc ++ [e]) init := by
    induction l with
    | nil => intro init; simp
    | cons x xs ih =>
      intro init
      simpa using ih (init ++ [x])
  simpa using (h []).symm

/-- The internal trace of create_event contains only dispatch entries. -/
theorem create_event_snd_countP (p : Call → Bool)
    (hp : ∀ b, p (Call.dispatch b) = false)
    (backend : BackendBehavior) (title s : String) (dur : Int)
    (emails : List String) (de lo : Option String) (rem : Bool)
    (vis cid : String) (ml : Bool) :
    ((create_event backend title s dur emails de lo rem vis cid ml).2).countP p = 0 := by
  unfold create_event
  rcases h : strptime_YmdHM s with _ | tm
  · simp
  · rcases backend with ⟨hi, hl⟩ | _ | _ <;>
      simp [List.countP_cons, List.countP_nil, hp]

/-- C1: if Stage 1 reports is_calendar_event false or a confidence below
0.7, both orchestrators return None (the NotAnEvent outcome) with a trace
containing only the Stage 1 call: Stage 2 and the Act stage are never
invoked. -/
theorem C1_gate_rejection_short_circuits (env : Env) (input : String)
    (e : EventExtraction) (hx : env.extractStub input = Except.ok e)
    (hg : e.is_calendar_event = false ∨ e.confidence_score < 7/10) :
    process_calendar_request env input
        = (Except.ok PyResult.noneVal, [Call.extract input])
    ∧ (process_calendar_request env input).2.countP isParseCall = 0
    ∧ (process_calendar_request env input).2.countP isCreateEventCall = 0
    ∧ process_calendar_request_basic env input
        = (Except.ok PyResult.noneVal, [Call.extract input]) := by
  have h1 : process_calendar_request env input
      = (Except.ok PyResult.noneVal, [Call.extract input]) := by
    unfold process_calendar_request
    rw [hx]
    simp only []
    rw [if_pos hg]
  have h2 : process_calendar_request_basic env input
      = (Except.ok PyResult.noneVal, [Call.extract input]) := by
    unfold process_calendar_request_basic
    rw [hx]
    simp only []
    rw [if_pos hg]
  refine ⟨h1, ?_, ?_, h2⟩ <;> rw [h1] <;> simp [isParseCall, isCreateEventCall]

/-- Stub environment: Stage 1 judges the input not to be an event. -/
def envRejected : Env where
  extractStub := fun _ =>
    Except.ok ⟨"user asks to send an email", false, (9:ℚ)/10⟩
  parseStub := fun _ => Except.error PyExn.providerError
  confirmStub := fun _ => Except.error PyExn.providerError
  serviceAvailable := true
  backend := BackendBehavior.httpError

theorem C1_witness :
    process_calendar_request envRejected "send an email to Alice"
        = (Except.ok PyResult.noneVal, [Call.extract "send an email to Alice"])
    ∧ (process_calendar_request envRejected "send an email to Alice").2.countP isParseCall = 0
    ∧ (process_calendar_request envRejected "send an email to Alice").2.countP isCreateEventCall = 0
    ∧ process_calendar_request_basic envRejected "send an email to Alice"
        = (Except.ok PyResult.noneVal, [Call.extract "send an email to Alice"]) :=
  C1_gate_rejection_short_circuits envRejected "send an email to Alice"
    ⟨"user asks to send an email", false, (9:ℚ)/10⟩ rfl (Or.inl rfl)

/-- Negation of the gate condition when Stage 1 reports an event with
confidence not below 0.7. -/
theorem gate_not_rejected {e : EventExtraction}
    (he : e.is_calendar_event = true) (hc : ¬ e.confidence_score < 7/10) :
    ¬ (e.is_calendar_event = false ∨ e.confidence_score < 7/10) := by
  intro h
  rcases h with h | h
  · rw [he] at h
    exact Bool.noConfusion h
  · exact hc h

/-- Master unfolding of process_calendar_request once the gate passed,
Stage 2 returned a record and the calendar connection is available. -/
theorem process_service_eq (env : Env) (input : String) (e : EventExtraction)
    (d : EventDetails) (hx : env.extractStub input = Except.ok e)
    (he : e.is_calendar_event = true) (hc : ¬ e.confidence_score < 7/10)
    (hp : env.parseStub e.description = Except.ok d)
    (hs : env.serviceAvailable = true) :
    process_calendar_request env input =
      (let ce := create_event env.backend d.name d.date d.duration_minutes
         d.participants none none true "default" "1" true
       let tr := [Call.extract input, Call.parse e.description,
                  Call.createEvent d.name d.date d.duration_minutes d.participants]
         ++ ce.2
       match ce.1 with
       | Except.error er => (Except.error er, tr)
       | Except.ok true =>
         match env.confirmStub d with
         | Except.error er => (Except.error er, tr ++ [Call.confirm d])
         | Except.ok c =>
           (Except.ok (PyResult.confirmation c), tr ++ [Call.confirm d])
       | Except.ok false =>
         (Except.ok (PyResult.failureMessage techMsg), tr)) := by
  have ha : authenticate env.serviceAvailable = some () := by rw [hs]; rfl
  unfold process_calendar_request
  rw [hx]
  simp only []
  rw [if_neg (gate_not_rejected he hc), hp]
  simp only [copy_participants_eq]
  rw [ha]

/-- When the gate rejects, both orchestrators return None immediately. -/
theorem gate_rejected_eq (env : Env) (input : String) (e : EventExtraction)
    (hx : env.extractStub input = Except.ok e)
    (hg : e.is_calendar_event = false ∨ e.confidence_score < 7/10) :
    process_calendar_request env input
        = (Except.ok PyResult.noneVal, [Call.extract input])
    ∧ process_calendar_request_basic env input
        = (Except.ok PyResult.noneVal, [Call.extract input]) := by
  constructor
  · unfold process_calendar_request
    rw [hx]
    simp only []
    rw [if_pos hg]
  · unfold process_calendar_request_basic
    rw [hx]
    simp only []
    rw [if_pos hg]

/-- Count of non-dispatch calls in a gate-passed run of the full
orchestrator: exactly the Stage 2 entry matches p when p holds only on
that entry among the possible call shapes. -/
theorem gate_passed_countP (env : Env) (input : String) (e : EventExtraction)
    (hx : env.extractStub input = Except.ok e)
    (he : e.is_calendar_event = true) (hc : ¬ e.confidence_score < 7/10)
    (p : Call → Bool)
    (hpx : ∀ s, p (Call.extract s) = false)
    (hpc : ∀ t dt dur a, p (Call.createEvent t dt dur a) = false)
    (hpd : ∀ b, p (Call.dispatch b) = false)
    (hpf : ∀ dd, p (Call.confirm dd) = false) :
    (process_calendar_request env input).2.countP p
      = (if p (Call.parse e.description) then 1 else 0) := by
  unfold process_calendar_request
  rw [hx]
  simp only []
  rw [if_neg (gate_not_rejected he hc)]
  rcases hp : env.parseStub e.description with er | d
  · simp [List.countP_cons, hpx]
  · simp only [copy_participants_eq]
    rcases ha : authenticate env.serviceAvailable with _ | u
    · simp [List.countP_cons, hpx]
    · rcases hce : (create_event env.backend d.name d.date d.duration_minutes
          d.participants none none true "default" "1" true).1 with er | b
      · simp [List.countP_append, List.countP_cons, hpx, hpc, hpd, hpf,
          create_event_snd_countP p hpd]
      · rcases b with _ | _
        · simp [List.countP_append, List.countP_cons, hpx, hpc, hpd, hpf,
            create_event_snd_countP p hpd]
        · rcases hcf : env.confirmStub d with er | c <;>
            simp [List.countP_append, List.countP_cons, hpx, hpc, hpd, hpf,
              create_event_snd_countP p hpd]

/-- Same counting fact for the basic orchestrator of 1-prompt-chaining.py. -/
theorem gate_passed_countP_basic (env : Env) (input : String)
    (e : EventExtraction) (hx : env.extractStub input = Except.ok e)
    (he : e.is_calendar_event = true) (hc : ¬ e.confidence_score < 7/10)
    (p : Call → Bool)
    (hpx : ∀ s, p (Call.extract s) = false)
    (hpf : ∀ dd, p (Call.confirm dd) = false) :
    (process_calendar_request_basic env input).2.countP p
      = (if p (Call.parse e.description) then 1 else 0) := by
  unfold process_calendar_request_basic
  rw [hx]
  simp only []
  rw [if_neg (gate_not_rejected he hc)]
  rcases hp : env.parseStub e.description with er | d
  · simp [List.countP_cons, hpx]
  · rcases hcf : env.confirmStub d with er | c <;>
      simp [hcf, List.countP_cons, hpx, hpf]

/-- C4: the gate boundary is inclusive at 0.70: with is_calendar_event
true, a confidence of exactly 0.70 passes the gate in both orchestrators
(Stage 2 is invoked), while any confidence strictly below 0.70 is gated
out (the result is None and Stage 2 is not invoked). -/
theorem C4_gate_boundary_inclusive (env : Env) (input : String)
    (e : EventExtraction) (hx : env.extractStub input = Except.ok e)
    (he : e.is_calendar_event = true) :
    (e.confidence_score = 7/10 →
      (process_calendar_request env input).2.countP isParseCall = 1
      ∧ (process_calendar_request_basic env input).2.countP isParseCall = 1)
    ∧ (e.confidence_score < 7/10 →
      process_calendar_request env input
          = (Except.ok PyResult.noneVal, [Call.extract input])
      ∧ process_calendar_request_basic env input
          = (Except.ok PyResult.noneVal, [Call.extract input])) := by
  constructor
  · intro hq
    have hc : ¬ e.confidence_score < 7/10 := by
      rw [hq]
      exact lt_irrefl _
    constructor
    · rw [gate_passed_countP env input e hx he hc isParseCall
        (fun _ => rfl) (fun _ _ _ _ => rfl) (fun _ => rfl) (fun _ => rfl)]
      rfl
    · rw [gate_passed_countP_basic env input e hx he hc isParseCall
        (fun _ => rfl) (fun _ => rfl)]
      rfl
  · intro hlt
    exact gate_rejected_eq env input e hx (Or.inr hlt)

/-- Stub environment with confidence exactly 0.70. -/
def envBoundary : Env where
  extractStub := fun _ =>
    Except.ok ⟨"team sync tomorrow at noon", true, (7:ℚ)/10⟩
  parseStub := fun _ =>
    Except.ok ⟨"Team sync", "2025-03-28 12:00", 30, ["alice@x.com"]⟩
  confirmStub := fun _ => Except.ok ⟨"Booked.", none⟩
  serviceAvailable := true
  backend := BackendBehavior.respond true true

theorem C4_witness :
    (process_calendar_request envBoundary "team sync tomorrow at noon").2.countP
        isParseCall = 1
    ∧ (process_calendar_request_basic envBoundary "team sync tomorrow at noon").2.countP
        isParseCall = 1 :=
  (C4_gate_boundary_inclusive envBoundary "team sync tomorrow at noon"
    ⟨"team sync tomorrow at noon", true, (7:ℚ)/10⟩ rfl rfl).1 rfl

/-- Count of Act stage calls in a gate-passed run with a connected
calendar service: exactly the create_event entry built from the Stage 2
record matches p when p holds only on that shape. -/
theorem gate_passed_service_create_countP (env : Env) (input : String)
    (e : EventExtraction) (d : EventDetails)
    (hx : env.extractStub input = Except.ok e)
    (he : e.is_calendar_event = true) (hc : ¬ e.confidence_score < 7/10)
    (hp : env.parseStub e.description = Except.ok d)
    (hs : env.serviceAvailable = true)
    (p : Call → Bool)
    (hpx : ∀ s, p (Call.extract s) = false)
    (hpp : ∀ s, p (Call.parse s) = false)
    (hpd : ∀ b, p (Call.dispatch b) = false)
    (hpf : ∀ dd, p (Call.confirm dd) = false) :
    (process_calendar_request env input).2.countP p
      = (if p (Call.createEvent d.name d.date d.duration_minutes d.participants)
         then 1 else 0) := by
  rw [process_service_eq env input e d hx he hc hp hs]
  simp only []
  rcases hce : (create_event env.backend d.name d.date d.duration_minutes
      d.participants none none true "default" "1" true).1 with er | b
  · simp [hce, List.countP_append, List.countP_cons, hpx, hpp, hpd, hpf,
      create_event_snd_countP p hpd]
  · rcases b with _ | _
    · simp [hce, List.countP_append, List.countP_cons, hpx, hpp, hpd, hpf,
        create_event_snd_countP p hpd]
    · rcases hcf : env.confirmStub d with er | c <;>
        simp [hce, hcf, List.countP_append, List.countP_cons, hpx, hpp, hpd, hpf,
          create_event_snd_countP p hpd]

/-- C2 (amended): once the gate passes, Stage 2 succeeds with record d and
the calendar connection is available, Stage 2 was invoked exactly once and
exactly with the Stage 1 description, and the Act stage is invoked exactly
once, with name, date, duration_minutes and participants all taken from d. -/
theorem C2_stage_arguments_exact (env : Env) (input : String)
    (e : EventExtraction) (d : EventDetails)
    (hx : env.extractStub input = Except.ok e)
    (he : e.is_calendar_event = true) (hc : ¬ e.confidence_score < 7/10)
    (hp : env.parseStub e.description = Except.ok d)
    (hs : env.serviceAvailable = true) :
    (process_calendar_request env input).2.countP isParseCall = 1
    ∧ (process_calendar_request env input).2.countP
        (fun c => decide (c = Call.parse e.description)) = 1
    ∧ (process_calendar_request env input).2.countP isCreateEventCall = 1
    ∧ (process_calendar_request env input).2.countP
        (fun c => decide (c = Call.createEvent d.name d.date
          d.duration_minutes d.participants)) = 1 := by
  refine ⟨?_, ?_, ?_, ?_⟩
  · rw [gate_passed_countP env input e hx he hc isParseCall
      (fun _ => rfl) (fun _ _ _ _ => rfl) (fun _ => rfl) (fun _ => rfl)]
    rfl
  · rw [gate_passed_countP env input e hx he hc _
      (fun s => by simp) (fun t dt dur a => by simp) (fun b => by simp)
      (fun dd => by simp)]
    simp
  · rw [gate_passed_service_create_countP env input e d hx he hc hp hs
      isCreateEventCall (fun _ => rfl) (fun _ => rfl) (fun _ => rfl)
      (fun _ => rfl)]
    rfl
  · rw [gate_passed_service_create_countP env input e d hx he hc hp hs _
      (fun s => by simp) (fun s => by simp) (fun b => by simp)
      (fun dd => by simp)]
    simp

/-- Stub environment for a fully successful run. -/
def envHappy : Env where
  extractStub := fun _ =>
    Except.ok ⟨"schedule a 30 minute call with alice", true, (95:ℚ)/100⟩
  parseStub := fun _ =>
    Except.ok ⟨"Call", "2025-07-08 15:00", 30, ["alice@x.com"]⟩
  confirmStub := fun _ =>
    Except.ok ⟨"Your call is scheduled.", some "evt-123"⟩
  serviceAvailable := true
  backend := BackendBehavior.respond true true

theorem C2_witness :
    (process_calendar_request envHappy "schedule a call").2.countP isParseCall = 1
    ∧ (process_calendar_request envHappy "schedule a call").2.countP
        (fun c => decide (c = Call.parse "schedule a 30 minute call with alice")) = 1
    ∧ (process_calendar_request envHappy "schedule a call").2.countP
        isCreateEventCall = 1
    ∧ (process_calendar_request envHappy "schedule a call").2.countP
        (fun c => decide (c = Call.createEvent "Call" "2025-07-08 15:00"
          30 ["alice@x.com"])) = 1 :=
  C2_stage_arguments_exact envHappy "schedule a call"
    ⟨"schedule a 30 minute call with alice", true, (95:ℚ)/100⟩
    ⟨"Call", "2025-07-08 15:00", 30, ["alice@x.com"]⟩
    rfl rfl (by norm_num) rfl rfl

/-- Stub environment in which the gate passes but the calendar connection
is unavailable (authenticate_and_connect_to_GoogleCalendarAPI gives None). -/
def envNoService : Env where
  extractStub := fun _ =>
    Except.ok ⟨"plan a 30 minute call", true, (95:ℚ)/100⟩
  parseStub := fun _ =>
    Except.ok ⟨"Call", "2025-07-08 15:00", 30, ["alice@x.com"]⟩
  confirmStub := fun _ => Except.ok ⟨"Done.", none⟩
  serviceAvailable := false
  backend := BackendBehavior.respond true true

/-- C2 counterexample: an input that passes the gate (Stage 2 is invoked)
on which the Act stage is invoked zero times, not exactly once: when the
calendar connection is unavailable the orchestrator returns the failure
string without ever calling create_event. -/
theorem C2_counterexample :
    (process_calendar_request envNoService "plan a 30 minute call").2.countP
        isParseCall = 1
    ∧ (process_calendar_request envNoService "plan a 30 minute call").2.countP
        isCreateEventCall = 0
    ∧ (process_calendar_request envNoService "plan a 30 minute call").1
        = Except.ok (PyResult.failureMessage techMsg) := by
  have h : process_calendar_request envNoService "plan a 30 minute call"
      = (Except.ok (PyResult.failureMessage techMsg),
         [Call.extract "plan a 30 minute call", Call.parse "plan a 30 minute call"]) := by
    unfold process_calendar_request
    simp only [envNoService]
    rw [if_neg (by norm_num)]
    rfl
  rw [h]
  refine ⟨rfl, rfl, rfl⟩

/-- C3: whenever create_event returns False (the backend reports failure),
the orchestrator returns the failure message as a normal value (not a
propagating exception) and Stage 3 is never invoked. -/
theorem C3_action_failure_is_normal_value (env : Env) (input : String)
    (e : EventExtraction) (d : EventDetails)
    (hx : env.extractStub input = Except.ok e)
    (he : e.is_calendar_event = true) (hc : ¬ e.confidence_score < 7/10)
    (hp : env.parseStub e.description = Except.ok d)
    (hs : env.serviceAvailable = true)
    (hce : (create_event env.backend d.name d.date d.duration_minutes
      d.participants none none true "default" "1" true).1 = Except.ok false) :
    (process_calendar_request env input).1
        = Except.ok (PyResult.failureMessage techMsg)
    ∧ (process_calendar_request env input).2.countP isConfirmCall = 0 := by
  rw [process_service_eq env input e d hx he hc hp hs]
  refine ⟨?_, ?_⟩
  · simp [hce]
  · simp [hce, List.countP_append, List.countP_cons, isConfirmCall,
      create_event_snd_countP isConfirmCall (fun _ => rfl)]

/-- Stub environment in which the calendar backend answers the insert
call with an HttpError, so create_event returns False. -/
def envActFail : Env where
  extractStub := fun _ =>
    Except.ok ⟨"set up a 45 minute meeting", true, (9:ℚ)/10⟩
  parseStub := fun _ =>
    Except.ok ⟨"AI agents talk", "2025-03-28 11:00", 45, ["architect@xyz.ai"]⟩
  confirmStub := fun _ => Except.ok ⟨"Created!", none⟩
  serviceAvailable := true
  backend := BackendBehavior.httpError

theorem C3_witness :
    (process_calendar_request envActFail "set up a 45 minute meeting").1
        = Except.ok (PyResult.failureMessage techMsg)
    ∧ (process_calendar_request envActFail "set up a 45 minute meeting").2.countP
        isConfirmCall = 0 :=
  C3_action_failure_is_normal_value envActFail "set up a 45 minute meeting"
    ⟨"set up a 45 minute meeting", true, (9:ℚ)/10⟩
    ⟨"AI agents talk", "2025-03-28 11:00", 45, ["architect@xyz.ai"]⟩
    rfl rfl (by norm_num) rfl rfl rfl

/-- C5: if the insert call of the Act stage times out or the connection
drops after the request was dispatched (the date had parsed, so the
dispatch happened), the run ends with the propagating transport exception:
never any normal return value, in particular never the failure string
that a clean backend rejection produces. -/
theorem C5_transport_failure_distinct (env : Env) (input : String)
    (e : EventExtraction) (d : EventDetails) (tm : Tm)
    (hx : env.extractStub input = Except.ok e)
    (he : e.is_calendar_event = true) (hc : ¬ e.confidence_score < 7/10)
    (hp : env.parseStub e.description = Except.ok d)
    (hs : env.serviceAvailable = true)
    (hb : env.backend = BackendBehavior.transportError)
    (hdate : strptime_YmdHM d.date = some tm) :
    (process_calendar_request env input).1 = Except.error PyExn.transportError
    ∧ (∀ v, (process_calendar_request env input).1 ≠ Except.ok v)
    ∧ (process_calendar_request env input).1
        ≠ Except.ok (PyResult.failureMessage techMsg) := by
  have hce : (create_event env.backend d.name d.date d.duration_minutes
      d.participants none none true "default" "1" true).1
      = Except.error PyExn.transportError := by
    rw [hb]
    unfold create_event
    rw [hdate]
  have h1 : (process_calendar_request env input).1
      = Except.error PyExn.transportError := by
    rw [process_service_eq env input e d hx he hc hp hs]
    simp only [hce]
  refine ⟨h1, ?_, ?_⟩
  · intro v hv
    rw [h1] at hv
    exact Except.noConfusion hv
  · intro hv
    rw [h1] at hv
    exact Except.noConfusion hv

/-- Stub environment in which the insert call of the Act stage suffers a
timeout / connection drop. -/
def envIndeterminate : Env where
  extractStub := fun _ =>
    Except.ok ⟨"set up a 45 minute meeting", true, (9:ℚ)/10⟩
  parseStub := fun _ =>
    Except.ok ⟨"AI agents talk", "2025-03-28 11:00", 45, ["architect@xyz.ai"]⟩
  confirmStub := fun _ => Except.ok ⟨"Created!", none⟩
  serviceAvailable := true
  backend := BackendBehavior.transportError

theorem C5_witness :
    (process_calendar_request envIndeterminate "set up a 45 minute meeting").1
        = Except.error PyExn.transportError
    ∧ (∀ v, (process_calendar_request envIndeterminate
        "set up a 45 minute meeting").1 ≠ Except.ok v)
    ∧ (process_calendar_request envIndeterminate "set up a 45 minute meeting").1
        ≠ Except.ok (PyResult.failureMessage techMsg) :=
  C5_transport_failure_distinct envIndeterminate "set up a 45 minute meeting"
    ⟨"set up a 45 minute meeting", true, (9:ℚ)/10⟩
    ⟨"AI agents talk", "2025-03-28 11:00", 45, ["architect@xyz.ai"]⟩
    ⟨2025, 3, 28, 11, 0⟩ rfl rfl (by norm_num) rfl rfl rfl rfl

/-- Stub environment in which the completion-provider call of Stage 1
raises. -/
def envProviderDown : Env where
  extractStub := fun _ => Except.error PyExn.providerError
  parseStub := fun _ => Except.error PyExn.providerError
  confirmStub := fun _ => Except.error PyExn.providerError
  serviceAvailable := true
  backend := BackendBehavior.httpError

/-- C6: the four failure outcomes of the pipeline are pairwise
distinguishable by the caller: the gate rejection is the None return, a
provider problem is a propagating provider exception, a clean action
failure is the failure-message return, and an indeterminate transport
failure is a propagating transport exception; no two of them coincide. -/
theorem C6_failure_outcomes_pairwise_distinct :
    (process_calendar_request envRejected "what a wonderful world").1
        = Except.ok PyResult.noneVal
    ∧ (process_calendar_request envProviderDown "hello there").1
        = Except.error PyExn.providerError
    ∧ (process_calendar_request envActFail "set up a meeting").1
        = Except.ok (PyResult.failureMessage techMsg)
    ∧ (process_calendar_request envIndeterminate "set up a meeting").1
        = Except.error PyExn.transportError
    ∧ (process_calendar_request envRejected "what a wonderful world").1
        ≠ (process_calendar_request envProviderDown "hello there").1
    ∧ (process_calendar_request envRejected "what a wonderful world").1
        ≠ (process_calendar_request envActFail "set up a meeting").1
    ∧ (process_calendar_request envRejected "what a wonderful world").1
        ≠ (process_calendar_request envIndeterminate "set up a meeting").1
    ∧ (process_calendar_request envProviderDown "hello there").1
        ≠ (process_calendar_request envActFail "set up a meeting").1
    ∧ (process_calendar_request envProviderDown "hello there").1
        ≠ (process_calendar_request envIndeterminate "set up a meeting").1
    ∧ (process_calendar_request envActFail "set up a meeting").1
        ≠ (process_calendar_request envIndeterminate "set up a meeting").1 := by
  have h1 : (process_calendar_request envRejected "what a wonderful world").1
      = Except.ok PyResult.noneVal := by
    unfold process_calendar_request
    simp [envRejected]
  have h2 : (process_calendar_request envProviderDown "hello there").1
      = Except.error PyExn.providerError := rfl
  have h3 : (process_calendar_request envActFail "set up a meeting").1
      = Except.ok (PyResult.failureMessage techMsg) := by
    unfold process_calendar_request
    simp only [envActFail]
    rw [if_neg (by norm_num)]
    rfl
  have h4 : (process_calendar_request envIndeterminate "set up a meeting").1
      = Except.error PyExn.transportError := by
    unfold process_calendar_request
    simp only [envIndeterminate]
    rw [if_neg (by norm_num)]
    rfl
  refine ⟨h1, h2, h3, h4, ?_, ?_, ?_, ?_, ?_, ?_⟩
  · rw [h1, h2]
    intro hcontra
    exact Except.noConfusion hcontra
  · rw [h1, h3]
    intro hcontra
    injection hcontra with h5
    exact PyResult.noConfusion h5
  · rw [h1, h4]
    intro hcontra
    exact Except.noConfusion hcontra
  · rw [h2, h3]
    intro hcontra
    exact Except.noConfusion hcontra
  · rw [h2, h4]
    intro hcontra
    injection hcontra with h5
    exact PyExn.noConfusion h5
  · rw [h3, h4]
    intro hcontra
    exact Except.noConfusion hcontra

/-- C9 (amended): the gate threshold of the source orchestrator is the
literal 0.7; process_calendar_request takes no threshold parameter and its
behaviour coincides with the spec-parameterized orchestrator instantiated
at the fixed default 0.7, for every environment and input. -/
theorem C9_threshold_semantically_fixed (env : Env) (input : String) :
    process_calendar_request env input
      = process_calendar_request_spec (7/10) env input := rfl

/-- Stub environment with an event of confidence 0.5. -/
def envHalf : Env where
  extractStub := fun _ =>
    Except.ok ⟨"maybe catch up Friday", true, (1:ℚ)/2⟩
  parseStub := fun _ => Except.error PyExn.providerError
  confirmStub := fun _ => Except.error PyExn.providerError
  serviceAvailable := true
  backend := BackendBehavior.httpError

/-- C9 counterexample: a caller wanting the documented configurability
(threshold 0.4 here) would see Stage 2 run on a confidence-0.5 event, as
the spec-parameterized orchestrator does; the source orchestrator accepts
no threshold and gates the same input out at its hard-coded 0.7. -/
theorem C9_counterexample :
    (process_calendar_request_spec ((2:ℚ)/5) envHalf "maybe catch up Friday").2.countP
        isParseCall = 1
    ∧ process_calendar_request envHalf "maybe catch up Friday"
        = (Except.ok PyResult.noneVal, [Call.extract "maybe catch up Friday"]) := by
  constructor
  · unfold process_calendar_request_spec
    simp only [envHalf]
    rw [if_neg (by norm_num)]
    rfl
  · unfold process_calendar_request
    simp only [envHalf]
    rw [if_pos (Or.inr (by norm_num))]

/-- An array of string-wrapped values always passes the element check. -/
theorem all_strings_map (ps : List String) :
    all_strings (ps.map Json.str) = some ps := by
  induction ps with
  | nil => rfl
  | cons x xs ih => simp [all_strings, ih]

/-- C7 (amended): Stage 2 raises ValidationError only for shape/type
violations of the declared pydantic model; a structurally valid response
is returned exactly as supplied — including a zero or negative
duration_minutes and an arbitrary non-timestamp date string — with no
defaulting and no rejection. -/
theorem C7_validation_is_shape_only (n d : String) (dur : Int) (ps : List String) :
    parse_event_details_validation
      (Json.obj [("name", Json.str n), ("date", Json.str d),
                 ("duration_minutes", Json.int dur),
                 ("participants", Json.arr (ps.map Json.str))])
      = Except.ok ⟨n, d, dur, ps⟩ := by
  simp [parse_event_details_validation, validate_EventDetails,
    List.lookup, all_strings_map]

/-- C7 counterexample: a structurally valid Stage 2 response carrying
duration_minutes 0 and an unresolved relative date string validates
successfully and is returned as-is; no ValidationError is raised. -/
theorem C7_counterexample :
    parse_event_details_validation
      (Json.obj [("name", Json.str "Team sync"),
                 ("date", Json.str "next Tuesday sometime"),
                 ("duration_minutes", Json.int 0),
                 ("participants", Json.arr [])])
      = Except.ok ⟨"Team sync", "next Tuesday sometime", 0, []⟩ := rfl

/-- C10: create_event parses start_datetime with
strptime "%Y-%m-%d %H:%M" as its first step; on any string that does not
match, it raises ValueError with zero external requests dispatched —
it does not return False. -/
theorem C10_strptime_guards_dispatch (backend : BackendBehavior)
    (title s : String) (dur : Int) (emails : List String)
    (de lo : Option String) (rem : Bool) (vis cid : String) (ml : Bool)
    (hbad : strptime_YmdHM s = none) :
    create_event backend title s dur emails de lo rem vis cid ml
      = (Except.error PyExn.valueError, []) := by
  unfold create_event
  rw [hbad]

theorem C10_witness :
    create_event BackendBehavior.httpError "Call" "2025-07-08T14:00:00" 30
      ["alice@x.com"] none none true "default" "1" true
      = (Except.error PyExn.valueError, []) :=
  C10_strptime_guards_dispatch BackendBehavior.httpError "Call"
    "2025-07-08T14:00:00" 30 ["alice@x.com"] none none true "default" "1"
    true rfl

/-! ## The tool-calling loop of 3-tools.py

The first completion returns a list of tool calls (id, function name,
json-decoded arguments). For each one the script appends the assistant
message, executes call_function, and appends one tool-role message whose
tool_call_id is the id of the request and whose content is
json.dumps(result); completion_2 is then invoked on the resulting message
list. JSON numbers are embedded as integers here; no claim depends on
numeric precision. -/

/-- A tool invocation requested by the model: tool_call.id,
tool_call.function.name and the json.loads of its arguments string. -/
structure ToolCall where
  id : String
  name : String
  args : Json

/-- Conversation messages of 3-tools.py. -/
inductive Message where
| system (content : String) : Message
| user (content : String) : Message
| assistantToolCalls (tcs : List ToolCall) : Message
| tool (tool_call_id : String) (content : String) : Message

/-- call_function of 3-tools.py: routes by name; only get_weather is
supported (executed on the model-supplied arguments through the external
weather service), any other name raises ValueError. -/
def call_function (weather : Json → Json) (nm : String) (args : Json) :
    Except PyExn Json :=
  if nm = "get_weather" then Except.ok (weather args)
  else Except.error PyExn.valueError

/-- The for-loop over completion.choices[0].message.tool_calls: per tool
call, append the first assistant message, execute the local function, and
append the tool-role result message. -/
def run_tool_loop (weather : Json → Json) (assistantMsg : Message) :
    List ToolCall → List Message → Except PyExn (List Message)
| [], messages => Except.ok messages
| tc :: rest, messages =>
  let messages2 := messages ++ [assistantMsg]
  match call_function weather tc.name tc.args with
  | Except.error e => Except.error e
  | Except.ok result =>
    run_tool_loop weather assistantMsg rest
      (messages2 ++ [Message.tool tc.id (json_dumps result)])

/-- The initial system and user messages of 3-tools.py. -/
def initial_messages : List Message :=
  [Message.system "You are a helpful weather assistant.",
   Message.user "What\x27s the weather like in Paris today?"]

/-- The conversation as it stands at the moment the second (final-answer)
completion call is made: the tool loop has run over every tool call of the
first response. -/
def tools_script (weather : Json → Json) (firstToolCalls : List ToolCall) :
    Except PyExn (List Message) :=
  run_tool_loop weather (Message.assistantToolCalls firstToolCalls)
    firstToolCalls initial_messages

/-- True on tool-role messages. -/
def isToolMsg : Message → Bool
| Message.tool _ _ => true
| _ => false

/-- A tool-role message is recognized as such. -/
theorem isToolMsg_tool (i c : String) : isToolMsg (Message.tool i c) = true := rfl

/-- The tool loop appends, per requested tool call and in order, exactly
one tool-role message with the id of the request and the serialized result
of the executed function. -/
theorem run_tool_loop_filter (weather : Json → Json) (aMsg : Message)
    (hA : isToolMsg aMsg = false) :
    ∀ (tcs : List ToolCall) (msgs : List Message),
      (∀ tc ∈ tcs, tc.name = "get_weather") →
      ∃ out, run_tool_loop weather aMsg tcs msgs = Except.ok out
        ∧ out.filter isToolMsg
          = msgs.filter isToolMsg
            ++ tcs.map (fun tc => Message.tool tc.id (json_dumps (weather tc.args))) := by
  intro tcs
  induction tcs with
  | nil =>
    intro msgs _
    exact ⟨msgs, rfl, by simp⟩
  | cons tc rest ih =>
    intro msgs hnames
    have hname : tc.name = "get_weather" := hnames tc (by simp)
    have hrest : ∀ t ∈ rest, t.name = "get_weather" := by
      intro t ht
      exact hnames t (by simp [ht])
    have hcf : call_function weather tc.name tc.args
        = Except.ok (weather tc.args) := by
      simp [call_function, hname]
    obtain ⟨out, hout, hfil⟩ :=
      ih ((msgs ++ [aMsg]) ++ [Message.tool tc.id (json_dumps (weather tc.args))]) hrest
    refine ⟨out, ?_, ?_⟩
    · simp only [run_tool_loop, hcf]
      exact hout
    · rw [hfil]
      simp [List.filter_append, List.filter_cons, hA, isToolMsg_tool]

/-- C8: in the tool-calling variant, for every tool invocation the first
response requests, the script executes the corresponding local function on
the model-supplied arguments and appends exactly one tool-role message
whose tool_call_id is the id of that request and whose content is the
JSON-serialized result; the message list handed to the second completion
call contains exactly these tool messages, in request order. -/
theorem C8_tool_loop_feeds_results (weather : Json → Json)
    (tcs : List ToolCall)
    (hnames : ∀ tc ∈ tcs, tc.name = "get_weather") :
    ∃ out, tools_script weather tcs = Except.ok out
      ∧ out.filter isToolMsg
        = tcs.map (fun tc => Message.tool tc.id (json_dumps (weather tc.args))) := by
  obtain ⟨out, h1, h2⟩ := run_tool_loop_filter weather
    (Message.assistantToolCalls tcs) rfl tcs initial_messages hnames
  refine ⟨out, h1, ?_⟩
  rw [h2]
  simp [initial_messages, isToolMsg]

/-- Stubbed weather backend answer (the current block of the
open-meteo response). -/
def weatherStubParis : Json → Json := fun _ =>
  Json.obj [("time", Json.str "2025-06-27T16:15"), ("interval", Json.int 900),
            ("temperature_2m", Json.int 29), ("wind_speed_10m", Json.int 10)]

/-- The tool call the model requested for the Paris question. -/
def parisToolCall : ToolCall :=
  ⟨"call_AgAqgAH6BIv5CFyotMtUvOWS", "get_weather",
   Json.obj [("latitude", Json.int 48), ("longitude", Json.int 2)]⟩

theorem C8_witness :
    ∃ out, tools_script weatherStubParis [parisToolCall] = Except.ok out
      ∧ out.filter isToolMsg
        = [parisToolCall].map
            (fun tc => Message.tool tc.id (json_dumps (weatherStubParis tc.args))) :=
  C8_tool_loop_feeds_results weatherStubParis [parisToolCall]
    (by
      intro tc htc
      rw [List.mem_singleton] at htc
      subst htc
      rfl)
